import Mathlib

/-!
Shallow embedding of `cookiesession.go` (package `cookiesession`).

Modelling conventions:
- Bytes are `Nat` (values produced by the encoder are `< 256` by construction;
  the decoder, like the Go code, only slices and reassembles, so it needs no
  range assumption).
- `uuid.UUID` (a `[16]byte`) is a `List Nat` of length 16.
- `time.Time` is modelled by its Unix-seconds value as an `Int`, since the
  serialization format only stores `Time.Unix()` (second precision).
- `time.Duration` (the store TTL) is likewise modelled in whole seconds.
- Go slices carry a capacity beyond their length; `GoSlice` records the
  visible elements (`data`) and the hidden tail up to capacity (`extra`),
  which is what decides whether a reslice such as `encrypted[:24]` panics.
- Panics are modelled as `none` in an `Option` result.
- The NaCl secretbox primitives and the base64 codec are external libraries;
  they enter `storeGet`/`save` at their call boundary as function or data
  parameters (`openBox`, `seal`, and the already-base64-decoded cookie value).
-/

/-- Big-endian 8-byte encoding of a 64-bit value, as in
`binary.BigEndian.PutUint64` (cookiesession.go line 63). -/
def beBytes8 (v : Nat) : List Nat :=
  [v / 2 ^ 56 % 256, v / 2 ^ 48 % 256, v / 2 ^ 40 % 256, v / 2 ^ 32 % 256,
   v / 2 ^ 24 % 256, v / 2 ^ 16 % 256, v / 2 ^ 8 % 256, v % 256]

/-- Big-endian read of the first 8 bytes, as in `binary.BigEndian.Uint64`
(cookiesession.go line 51). -/
def beUint64 (l : List Nat) : Nat :=
  List.foldl (fun a b => a * 256 + b) 0 (l.take 8)

/-- Go conversion `uint64(t)` applied to an `int64`: reduction mod 2^64. -/
def goUint64 (t : Int) : Nat :=
  (t % (2 ^ 64 : Int)).toNat

/-- Go conversion `int64(v)` applied to a `uint64`: two's-complement
reinterpretation. -/
def toInt64 (v : Nat) : Int :=
  if v < 2 ^ 63 then (v : Int) else (v : Int) - 2 ^ 64

/-- `uuid.FromBytes` from github.com/satori/go.uuid: succeeds exactly on
16-byte input, copying it; otherwise errors. -/
def fromBytes (l : List Nat) : Except String (List Nat) :=
  if l.length = 16 then .ok l else .error "uuid: UUID must be exactly 16 bytes long"

/-- `Session` (cookiesession.go lines 21-28). `time` is the Unix-seconds
value of the `Time` field. -/
structure Session where
  valid : Bool
  time : Int
  sid : List Nat
  uid : List Nat
  realUID : List Nat
  state : List Nat
deriving DecidableEq

/-- The Go zero value of `uuid.UUID`: sixteen zero bytes. -/
def zeroUUID : List Nat := List.replicate 16 0

/-- The Go zero value of `Session` (`var ss Session`). -/
def emptySession : Session :=
  { valid := false, time := 0, sid := zeroUUID, uid := zeroUUID,
    realUID := zeroUUID, state := [] }

/-- The errors `Session.UnmarshalBinary` can return: `ErrTooShort`
(cookiesession.go line 18) or an error from `uuid.FromBytes`. -/
inductive UnmarshalError where
  | tooShort
  | uuidError (msg : String)
deriving DecidableEq

/-- `Session.UnmarshalBinary` (cookiesession.go lines 30-58). The Go method
mutates its receiver on success only; the model takes the receiver state and
returns the error result together with the receiver state afterwards. -/
def unmarshalBinary (s : Session) (data : List Nat) :
    Except UnmarshalError Unit × Session :=
  if data.length < 8 + 16 + 16 + 16 then (.error .tooShort, s)
  else
    match fromBytes ((data.drop 8).take 16) with
    | .error e => (.error (.uuidError e), s)
    | .ok sid =>
      match fromBytes ((data.drop 24).take 16) with
      | .error e => (.error (.uuidError e), s)
      | .ok uid =>
        match fromBytes ((data.drop 40).take 16) with
        | .error e => (.error (.uuidError e), s)
        | .ok realUID =>
          (.ok (), { valid := true,
                     time := toInt64 (beUint64 (data.take 8)),
                     sid := sid, uid := uid, realUID := realUID,
                     state := data.drop 56 })

/-- `Session.MarshalBinary` (cookiesession.go lines 60-70): 8-byte big-endian
`uint64(Time.Unix())`, then `SID`, `UID`, `RealUID`, then `State`. -/
def marshalBinary (s : Session) : List Nat :=
  beBytes8 (goUint64 s.time) ++ s.sid ++ s.uid ++ s.realUID ++ s.state

/-- The `([]byte, error)` result of Go `MarshalBinary`; the error is always
nil in the source (line 69), and `Save` still checks it (line 135). -/
def marshalBinaryE (s : Session) : Except String (List Nat) :=
  .ok (marshalBinary s)

/-- `Store` (cookiesession.go lines 72-77). `ttl` in seconds. The derived
`Key` and the constructor `New` involve only SHA-256, which is abstracted
away with the rest of the cryptography. -/
structure Store where
  name : String
  secret : String
  httpOnly : Bool
  secure : Bool
  ttl : Int
deriving DecidableEq

/-- The fields of `http.Cookie` that the package sets. `expires` is the
Unix-seconds value; `value` holds the bytes that the base64 cookie string
encodes (base64 being injective, the empty string corresponds to `[]`). -/
structure Cookie where
  path : String
  httpOnly : Bool
  secure : Bool
  name : String
  expires : Int
  maxAge : Int
  value : List Nat
deriving DecidableEq

/-- A Go byte slice: `data` is the visible content (up to `len`), `extra`
the hidden elements between `len` and `cap`. -/
structure GoSlice where
  data : List Nat
  extra : List Nat
deriving DecidableEq

/-- Capacity of a Go slice. -/
def GoSlice.cap (s : GoSlice) : Nat := s.data.length + s.extra.length

/-- Go reslicing `s[:i]`: legal iff `i ≤ cap(s)` (panics otherwise), and may
expose elements beyond the old length. -/
def goSliceTake (s : GoSlice) (i : Nat) : Option GoSlice :=
  if i ≤ s.data.length then some ⟨s.data.take i, s.data.drop i ++ s.extra⟩
  else if i ≤ s.cap then
    some ⟨s.data ++ s.extra.take (i - s.data.length),
          s.extra.drop (i - s.data.length)⟩
  else none

/-- Go reslicing `s[i:]`: legal iff `i ≤ cap(s)` (panics otherwise). -/
def goSliceDrop (s : GoSlice) (i : Nat) : Option GoSlice :=
  if i ≤ s.data.length then some ⟨s.data.drop i, s.extra⟩
  else if i ≤ s.cap then some ⟨[], s.extra.drop (i - s.data.length)⟩
  else none

/-- `uuid.NewV4` from github.com/satori/go.uuid on 16 random bytes:
`SetVersion(4)` forces byte 6 to `(b & 0x0f) | 0x40` and `SetVariant`
forces byte 8 to `(b & 0x3f) | 0x80`. -/
def newV4 (bs : List Nat) : List Nat :=
  let b1 := bs.set 6 ((bs.getD 6 0) &&& 0x0f ||| 0x40)
  b1.set 8 ((b1.getD 8 0) &&& 0x3f ||| 0x80)

/-- The session `Session{SID: uuid.Must(uuid.NewV4())}` that `Get` returns
on every failure path: all fields are Go zero values except `SID`. -/
def anonSession (sid : List Nat) : Session :=
  { valid := false, time := 0, sid := sid, uid := zeroUUID,
    realUID := zeroUUID, state := [] }

/-- Tail of `Store.Get` after a successful `secretbox.Open`
(cookiesession.go lines 114-123): decode `buf`, then expire when
`now - ss.Time > TTL`. `freshRand` is the random input of the `NewV4`
call on the failure paths. -/
def getAfterDecrypt (ttl now : Int) (freshRand buf : List Nat) : Session :=
  match unmarshalBinary emptySession buf with
  | (.error _, _) => anonSession (newV4 freshRand)
  | (.ok _, ss) =>
    if now - ss.time > ttl then anonSession (newV4 freshRand) else ss

/-- `Store.Get` (cookiesession.go lines 93-124).
`cookie` is `none` when `r.Cookie(s.Name)` errors (no matching cookie),
`some (.error ())` when the base64 decode fails, and `some (.ok encrypted)`
is the decoded value together with its capacity. `openBox ciphertext nonce`
is `secretbox.Open` with the store key. The result is `none` when the Go
code panics, which happens at `encrypted[:24]` / `encrypted[24:]` when the
capacity is under 24. -/
def storeGet (st : Store) (now : Int) (freshRand : List Nat)
    (cookie : Option (Except Unit GoSlice))
    (openBox : List Nat → List Nat → Option (List Nat)) : Option Session :=
  match cookie with
  | none => some (anonSession (newV4 freshRand))
  | some (.error _) => some (anonSession (newV4 freshRand))
  | some (.ok encrypted) =>
    match goSliceTake encrypted 24 with
    | none => none
    | some noncePart =>
      match goSliceDrop encrypted 24 with
      | none => none
      | some rest =>
        match openBox rest.data noncePart.data with
        | none => some (anonSession (newV4 freshRand))
        | some buf => some (getAfterDecrypt st.ttl now freshRand buf)

/-- `Store.Save` (cookiesession.go lines 126-150). `randNonce` is the result
of `io.ReadFull(rand.Reader, nonce[:])`: `none` when the random source
fails, otherwise the 24 nonce bytes. `seal nonce buf` is
`secretbox.Seal(nonce[:], buf, &nonce, &s.Key)`. On success the result
carries the cookie that `http.SetCookie` receives and the mutated session. -/
def save (st : Store) (now : Int) (randNonce : Option (List Nat))
    (sealBox : List Nat → List Nat → List Nat) (ss : Session) :
    Except String (Cookie × Session) :=
  match randNonce with
  | none => .error "could not get random nonce"
  | some nonce =>
    let ss1 := { ss with time := now }
    match marshalBinaryE ss1 with
    | .error e => .error ("could not encode session: " ++ e)
    | .ok buf =>
      .ok ({ path := "/", httpOnly := st.httpOnly, secure := st.secure,
             name := st.name, expires := now + st.ttl, maxAge := st.ttl,
             value := sealBox nonce buf }, ss1)

/-- `Store.Clear` (cookiesession.go lines 152-162). -/
def clear (st : Store) : Cookie :=
  { path := "/", httpOnly := st.httpOnly, secure := st.secure,
    name := st.name, expires := 0, maxAge := -1, value := [] }

/-! ### Helper lemmas -/

theorem beUint64_beBytes8 (v : Nat) (h : v < 2 ^ 64) :
    beUint64 (beBytes8 v) = v := by
  simp only [beUint64, beBytes8, List.take, List.foldl]
  omega

theorem goUint64_lt (t : Int) : goUint64 t < 2 ^ 64 := by
  unfold goUint64
  omega

theorem toInt64_goUint64 (t : Int) (h1 : -(2 ^ 63) ≤ t) (h2 : t < 2 ^ 63) :
    toInt64 (goUint64 t) = t := by
  unfold toInt64 goUint64
  split <;> omega

theorem fromBytes_ok (l : List Nat) (h : l.length = 16) :
    fromBytes l = .ok l := by
  simp [fromBytes, h]

theorem unmarshal_success (s : Session) (data : List Nat)
    (h : 56 ≤ data.length) :
    unmarshalBinary s data =
      (.ok (), { valid := true,
                 time := toInt64 (beUint64 (data.take 8)),
                 sid := (data.drop 8).take 16,
                 uid := (data.drop 24).take 16,
                 realUID := (data.drop 40).take 16,
                 state := data.drop 56 }) := by
  have l1 : ((data.drop 8).take 16).length = 16 := by
    simp [List.length_take, List.length_drop]; omega
  have l2 : ((data.drop 24).take 16).length = 16 := by
    simp [List.length_take, List.length_drop]; omega
  have l3 : ((data.drop 40).take 16).length = 16 := by
    simp [List.length_take, List.length_drop]; omega
  unfold unmarshalBinary
  rw [if_neg (by omega), fromBytes_ok _ l1, fromBytes_ok _ l2, fromBytes_ok _ l3]

theorem marshal_length (s : Session) :
    (marshalBinary s).length = 8 + s.sid.length + s.uid.length
      + s.realUID.length + s.state.length := by
  simp [marshalBinary, beBytes8]
  omega

theorem marshal_take8 (s : Session) :
    (marshalBinary s).take 8 = beBytes8 (goUint64 s.time) := by
  have : (beBytes8 (goUint64 s.time)).length = 8 := rfl
  simp [marshalBinary, List.append_assoc, List.take_append_of_le_length,
    this]

theorem marshal_drop8 (s : Session) :
    (marshalBinary s).drop 8 = s.sid ++ s.uid ++ s.realUID ++ s.state := by
  have h8 : (beBytes8 (goUint64 s.time)).length = 8 := rfl
  simp only [marshalBinary]
  rw [List.append_assoc, List.append_assoc, List.append_assoc,
    ← h8, List.drop_left, ← List.append_assoc, ← List.append_assoc]

/-- Shared round-trip core: decoding an encoded session with well-formed
identifiers succeeds and recovers every field, with `valid := true`. -/
theorem roundtrip_core (r s : Session)
    (h1 : s.sid.length = 16) (h2 : s.uid.length = 16)
    (h3 : s.realUID.length = 16)
    (h4 : -(2 ^ 63) ≤ s.time) (h5 : s.time < 2 ^ 63) :
    unmarshalBinary r (marshalBinary s) = (.ok (), { s with valid := true }) := by
  have hlen : 56 ≤ (marshalBinary s).length := by
    rw [marshal_length]; omega
  rw [unmarshal_success r _ hlen]
  have hd8 := marshal_drop8 s
  have hsid : ((marshalBinary s).drop 8).take 16 = s.sid := by
    rw [hd8, List.append_assoc, List.append_assoc, ← h1,
      List.take_left]
  have hd24 : (marshalBinary s).drop 24 = s.uid ++ s.realUID ++ s.state := by
    have : (marshalBinary s).drop 24 = ((marshalBinary s).drop 8).drop 16 := by
      rw [List.drop_drop]
    rw [this, hd8, List.append_assoc, List.append_assoc, ← h1,
      List.drop_left, ← List.append_assoc]
  have huid : ((marshalBinary s).drop 24).take 16 = s.uid := by
    rw [hd24, List.append_assoc, ← h2, List.take_left]
  have hd40 : (marshalBinary s).drop 40 = s.realUID ++ s.state := by
    have : (marshalBinary s).drop 40 = ((marshalBinary s).drop 24).drop 16 := by
      rw [List.drop_drop]
    rw [this, hd24, List.append_assoc, ← h2, List.drop_left]
  have hruid : ((marshalBinary s).drop 40).take 16 = s.realUID := by
    rw [hd40, ← h3, List.take_left]
  have hstate : (marshalBinary s).drop 56 = s.state := by
    have : (marshalBinary s).drop 56 = ((marshalBinary s).drop 40).drop 16 := by
      rw [List.drop_drop]
    rw [this, hd40, ← h3, List.drop_left]
  have htime : toInt64 (beUint64 ((marshalBinary s).take 8)) = s.time := by
    rw [marshal_take8, beUint64_beBytes8 _ (goUint64_lt s.time),
      toInt64_goUint64 s.time h4 h5]
  rw [hsid, huid, hruid, hstate, htime]

theorem lor64_ne_zero (x : Nat) : x ||| 64 ≠ 0 := by
  intro h
  have hb : (x ||| 64).testBit 6 = true := by
    rw [Nat.testBit_or]
    have : Nat.testBit 64 6 = true := by decide
    simp [this]
  rw [h] at hb
  simp [Nat.zero_testBit] at hb

theorem newV4_getElem6 (bs : List Nat) (h : bs.length = 16) :
    (newV4 bs)[6]? = some ((bs.getD 6 0) &&& 0x0f ||| 0x40) := by
  show ((bs.set 6 _).set 8 _)[6]? = _
  rw [List.getElem?_set_ne (by omega)]
  rw [List.getElem?_set_self (by omega)]

theorem newV4_ne_zeroUUID (bs : List Nat) (h : bs.length = 16) :
    newV4 bs ≠ zeroUUID := by
  intro heq
  have h6 := newV4_getElem6 bs h
  rw [heq] at h6
  have hz : (zeroUUID)[6]? = some 0 := rfl
  rw [hz] at h6
  have h0 : (bs.getD 6 0) &&& 0x0f ||| 0x40 = 0 := by
    simpa using h6.symm
  exact lor64_ne_zero _ h0

theorem unmarshal_ok_or_unchanged (r : Session) (data : List Nat) :
    (unmarshalBinary r data).1 = .ok () ∨ (unmarshalBinary r data).2 = r := by
  unfold unmarshalBinary
  split
  · exact .inr rfl
  · split
    · exact .inr rfl
    · split
      · exact .inr rfl
      · split
        · exact .inr rfl
        · exact .inl rfl

/-! ### Claim theorems -/

/-- Claim C1: for every `Session` whose `SID`, `UID` and `RealUID` are
128-bit (16-byte) values and whose Unix time is a 64-bit signed value,
`UnmarshalBinary (MarshalBinary s)` succeeds and reproduces `Time` (at the
second precision the format stores), `SID`, `UID`, `RealUID` and `State`
byte-for-byte, setting `Valid := true`, whatever the prior receiver state. -/
theorem marshal_unmarshal_roundtrip (r s : Session)
    (h1 : s.sid.length = 16) (h2 : s.uid.length = 16)
    (h3 : s.realUID.length = 16)
    (h4 : -(2 ^ 63) ≤ s.time) (h5 : s.time < 2 ^ 63) :
    unmarshalBinary r (marshalBinary s) = (.ok (), { s with valid := true }) :=
  roundtrip_core r s h1 h2 h3 h4 h5

/-- Witness for C1 at a concrete session. -/
theorem marshal_unmarshal_roundtrip_witness :
    unmarshalBinary emptySession
        (marshalBinary ⟨false, 77, List.replicate 16 1, List.replicate 16 2,
          List.replicate 16 3, [9, 8]⟩) =
      (.ok (), ⟨true, 77, List.replicate 16 1, List.replicate 16 2,
          List.replicate 16 3, [9, 8]⟩) :=
  marshal_unmarshal_roundtrip emptySession
    ⟨false, 77, List.replicate 16 1, List.replicate 16 2,
      List.replicate 16 3, [9, 8]⟩
    (by decide) (by decide) (by decide) (by decide) (by decide)

/-- Claim C2 (refuting theorem): the code, evaluated at a present cookie
whose base64 decoding is shorter than 24 bytes (here the empty value, the
base64 decoding of `""`), panics at `encrypted[:24]` instead of returning a
fresh anonymous session — `storeGet` yields `none` (the panic marker). -/
theorem get_panics_on_short_cookie :
    storeGet ⟨"session", "secret", false, false, 3600⟩ 0
      (List.replicate 16 0) (some (.ok ⟨[], []⟩)) (fun _ _ => none) = none := rfl

/-- Claim C3: `UnmarshalBinary` fails with `TooShort` exactly on inputs
shorter than 56 bytes; on longer input it succeeds, reading the 8-byte
big-endian timestamp, the three consecutive 16-byte identifiers, and the
remaining bytes as `State`, with `Valid := true`. -/
theorem unmarshal_tooShort_boundary (r : Session) (data : List Nat) :
    ((unmarshalBinary r data).1 = .error .tooShort ↔ data.length < 56) ∧
    (56 ≤ data.length →
      unmarshalBinary r data =
        (.ok (), { valid := true,
                   time := toInt64 (beUint64 (data.take 8)),
                   sid := (data.drop 8).take 16,
                   uid := (data.drop 24).take 16,
                   realUID := (data.drop 40).take 16,
                   state := data.drop 56 })) := by
  constructor
  · by_cases h : data.length < 56
    · have : (unmarshalBinary r data).1 = .error .tooShort := by
        unfold unmarshalBinary
        rw [if_pos (by omega)]
      exact ⟨fun _ => h, fun _ => this⟩
    · rw [unmarshal_success r data (by omega)]
      constructor
      · intro hcontra
        exact absurd hcontra (by simp)
      · omega
  · exact unmarshal_success r data

/-- Witness for C3 on a concrete 58-byte input. -/
theorem unmarshal_tooShort_boundary_witness :
    unmarshalBinary emptySession (List.replicate 58 4) =
      (.ok (), { valid := true,
                 time := toInt64 (beUint64 ((List.replicate 58 4).take 8)),
                 sid := ((List.replicate 58 4).drop 8).take 16,
                 uid := ((List.replicate 58 4).drop 24).take 16,
                 realUID := ((List.replicate 58 4).drop 40).take 16,
                 state := (List.replicate 58 4).drop 56 }) :=
  (unmarshal_tooShort_boundary emptySession (List.replicate 58 4)).2 (by decide)

/-- Claim C4: a session encoded with timestamp `t0` and read against TTL
`ttl` at time `now`: when the elapsed time exceeds the TTL, `Get` yields a
fresh anonymous session whose `SID` is the newly generated one (so it does
not retain the old `SID` whenever the fresh id differs); when the elapsed
time does not exceed the TTL, `Get` returns the decoded session unchanged
with `Valid = true`. -/
theorem get_expiry_boundary (ttl t0 now : Int) (fresh : List Nat) (s : Session)
    (h1 : s.sid.length = 16) (h2 : s.uid.length = 16)
    (h3 : s.realUID.length = 16)
    (h4 : -(2 ^ 63) ≤ t0) (h5 : t0 < 2 ^ 63) :
    (now - t0 > ttl →
      getAfterDecrypt ttl now fresh (marshalBinary { s with time := t0 })
          = anonSession (newV4 fresh) ∧
      (newV4 fresh ≠ s.sid →
        (getAfterDecrypt ttl now fresh
            (marshalBinary { s with time := t0 })).sid ≠ s.sid)) ∧
    (now - t0 ≤ ttl →
      getAfterDecrypt ttl now fresh (marshalBinary { s with time := t0 })
          = { s with time := t0, valid := true }) := by
  have hrt := roundtrip_core emptySession { s with time := t0 } h1 h2 h3 h4 h5
  have hget : getAfterDecrypt ttl now fresh (marshalBinary { s with time := t0 })
      = if now - t0 > ttl then anonSession (newV4 fresh)
        else { s with time := t0, valid := true } := by
    unfold getAfterDecrypt
    rw [hrt]
  constructor
  · intro hexp
    rw [hget, if_pos hexp]
    exact ⟨rfl, fun hne => hne⟩
  · intro hfresh
    rw [hget, if_neg (by omega)]

/-- Witness for C4 at a concrete expired read. -/
theorem get_expiry_boundary_witness :
    getAfterDecrypt 10 11 (List.replicate 16 0)
        (marshalBinary ⟨false, 0, List.replicate 16 1, List.replicate 16 2,
          List.replicate 16 3, []⟩)
      = anonSession (newV4 (List.replicate 16 0)) :=
  ((get_expiry_boundary 10 0 11 (List.replicate 16 0)
      ⟨false, 0, List.replicate 16 1, List.replicate 16 2,
        List.replicate 16 3, []⟩
      (by decide) (by decide) (by decide) (by decide) (by decide)).1
    (by decide)).1

/-- Claim C5: `Save` fails exactly when the secure random read fails; on
failure it surfaces an error (and, the result carrying no cookie, sets
none); otherwise it returns no error together with the cookie that is
set. -/
theorem save_error_iff_rand (st : Store) (now : Int)
    (randNonce : Option (List Nat))
    (sealBox : List Nat → List Nat → List Nat) (ss : Session) :
    ((∃ e, save st now randNonce sealBox ss = .error e) ↔ randNonce = none) ∧
    (∀ nonce, randNonce = some nonce →
      save st now randNonce sealBox ss =
        .ok ({ path := "/", httpOnly := st.httpOnly, secure := st.secure,
               name := st.name, expires := now + st.ttl, maxAge := st.ttl,
               value := sealBox nonce (marshalBinary { ss with time := now }) },
             { ss with time := now })) := by
  cases randNonce with
  | none =>
    refine ⟨⟨fun _ => rfl, fun _ => ⟨_, rfl⟩⟩, fun nonce h => by simp at h⟩
  | some nonce =>
    refine ⟨⟨fun ⟨e, he⟩ => ?_, fun h => by simp at h⟩, fun n h => ?_⟩
    · exact absurd he (by simp [save, marshalBinaryE])
    · cases h
      rfl

/-- Witness for C5 at a concrete nonce. -/
theorem save_error_iff_rand_witness :
    save ⟨"n", "sec", false, false, 60⟩ 5 (some (List.replicate 24 7))
        (fun _ _ => []) emptySession =
      .ok ({ path := "/", httpOnly := false, secure := false, name := "n",
             expires := 65, maxAge := 60, value := [] },
           { emptySession with time := 5 }) :=
  (save_error_iff_rand ⟨"n", "sec", false, false, 60⟩ 5
      (some (List.replicate 24 7)) (fun _ _ => []) emptySession).2
    (List.replicate 24 7) rfl

/-- Claim C6: a successful `Save` changes exactly the `Time` field of the
passed session (to the current time), leaving `Valid`, `SID`, `UID`,
`RealUID` and `State` untouched. -/
theorem save_frame (st : Store) (now : Int) (randNonce : Option (List Nat))
    (sealBox : List Nat → List Nat → List Nat) (ss : Session)
    (c : Cookie) (ss1 : Session)
    (h : save st now randNonce sealBox ss = .ok (c, ss1)) :
    ss1.time = now ∧ ss1.valid = ss.valid ∧ ss1.sid = ss.sid ∧
    ss1.uid = ss.uid ∧ ss1.realUID = ss.realUID ∧ ss1.state = ss.state := by
  cases randNonce with
  | none => exact absurd h (by simp [save])
  | some nonce =>
    have : ss1 = { ss with time := now } := by
      have h2 := h
      simp only [save, marshalBinaryE] at h2
      exact (congrArg (fun p => p.2) (Except.ok.inj h2)).symm
    rw [this]
    exact ⟨rfl, rfl, rfl, rfl, rfl, rfl⟩

/-- Witness for C6 at a concrete successful save. -/
theorem save_frame_witness :
    ({ emptySession with time := 5 } : Session).time = 5 ∧
    ({ emptySession with time := 5 } : Session).valid = emptySession.valid ∧
    ({ emptySession with time := 5 } : Session).sid = emptySession.sid ∧
    ({ emptySession with time := 5 } : Session).uid = emptySession.uid ∧
    ({ emptySession with time := 5 } : Session).realUID = emptySession.realUID ∧
    ({ emptySession with time := 5 } : Session).state = emptySession.state :=
  save_frame ⟨"n", "sec", false, false, 60⟩ 5 (some (List.replicate 24 7))
    (fun _ _ => []) emptySession
    { path := "/", httpOnly := false, secure := false, name := "n",
      expires := 65, maxAge := 60, value := [] }
    { emptySession with time := 5 } rfl

/-- Claim C7: with no matching cookie, `Get` returns a session with
`Valid = false`, a freshly generated non-zero 128-bit `SID`, and zero/empty
`UID`, `RealUID` and `State`. -/
theorem get_no_cookie_fresh (st : Store) (now : Int) (fresh : List Nat)
    (openBox : List Nat → List Nat → Option (List Nat))
    (h : fresh.length = 16) :
    storeGet st now fresh none openBox = some (anonSession (newV4 fresh)) ∧
    (anonSession (newV4 fresh)).valid = false ∧
    (anonSession (newV4 fresh)).sid = newV4 fresh ∧
    newV4 fresh ≠ zeroUUID ∧
    (anonSession (newV4 fresh)).uid = zeroUUID ∧
    (anonSession (newV4 fresh)).realUID = zeroUUID ∧
    (anonSession (newV4 fresh)).state = [] :=
  ⟨rfl, rfl, rfl, newV4_ne_zeroUUID fresh h, rfl, rfl, rfl⟩

/-- Witness for C7 at concrete random bytes. -/
theorem get_no_cookie_fresh_witness :
    storeGet ⟨"n", "sec", false, false, 60⟩ 0 (List.replicate 16 0) none
        (fun _ _ => none) =
      some (anonSession (newV4 (List.replicate 16 0))) :=
  (get_no_cookie_fresh ⟨"n", "sec", false, false, 60⟩ 0 (List.replicate 16 0)
    (fun _ _ => none) (by decide)).1

/-- Claim C8: `Clear` always sets a cookie with the store name, path `/`,
the configured `HttpOnly`/`Secure` flags, empty value, `Expires` at the
Unix epoch and `MaxAge = -1`; it is a total function doing no
cryptographic work. -/
theorem clear_attributes (st : Store) :
    (clear st).name = st.name ∧ (clear st).path = "/" ∧
    (clear st).httpOnly = st.httpOnly ∧ (clear st).secure = st.secure ∧
    (clear st).value = [] ∧ (clear st).expires = 0 ∧ (clear st).maxAge = -1 :=
  ⟨rfl, rfl, rfl, rfl, rfl, rfl, rfl⟩

/-- Claim C9: whenever `UnmarshalBinary` returns an error, the receiver
session is left completely unchanged. -/
theorem unmarshal_error_receiver_unchanged (r : Session) (data : List Nat)
    (e : UnmarshalError) (h : (unmarshalBinary r data).1 = .error e) :
    (unmarshalBinary r data).2 = r := by
  rcases unmarshal_ok_or_unchanged r data with hok | hsame
  · rw [hok] at h
    exact absurd h (by simp)
  · exact hsame

/-- Witness for C9 on a too-short input and a non-trivial receiver. -/
theorem unmarshal_error_receiver_unchanged_witness :
    (unmarshalBinary ⟨true, 5, [1], [2], [3], [4]⟩ [0, 0, 0]).2 =
      ⟨true, 5, [1], [2], [3], [4]⟩ :=
  unmarshal_error_receiver_unchanged ⟨true, 5, [1], [2], [3], [4]⟩ [0, 0, 0]
    .tooShort rfl

/-- Claim C10: on any input of at least 56 bytes `UnmarshalBinary`
succeeds — the identifier parse-error branches are unreachable since the
three slices have exactly 16 bytes — so decoding can only fail with
`TooShort`. -/
theorem unmarshal_long_always_ok (r : Session) (data : List Nat) :
    (56 ≤ data.length → (unmarshalBinary r data).1 = .ok ()) ∧
    (∀ e, (unmarshalBinary r data).1 = .error e → e = .tooShort) := by
  constructor
  · intro h
    rw [unmarshal_success r data h]
  · intro e he
    by_cases h : 56 ≤ data.length
    · rw [unmarshal_success r data h] at he
      exact absurd he (by simp)
    · unfold unmarshalBinary at he
      rw [if_pos (by omega)] at he
      simpa using he.symm

/-- Witness for C10 on a concrete 56-byte input. -/
theorem unmarshal_long_always_ok_witness :
    (unmarshalBinary emptySession (List.replicate 56 0)).1 = .ok () :=
  (unmarshal_long_always_ok emptySession (List.replicate 56 0)).1 (by decide)
